import Mathlib

/-!
Shallow embedding of the two scripts of talchemy-logos-exploration
(src/generate.py and src/generate2.py) and proofs about them.

Strings are modelled as lists of characters.  Python string methods used by
the scripts (lower, strip, join, slicing) and the two regex substitutions of
slugify are embedded as executable Lean functions on character lists.
-/

namespace Gen

/-- A Python string, modelled as its list of characters. -/
abbrev PyStr := List Char

/-- The characters matched by the regex class [a-z0-9] of slugify. -/
def isAlnum (c : Char) : Bool :=
  ('a' ≤ c && c ≤ 'z') || ('0' ≤ c && c ≤ '9')

/-- The whitespace stripped by Python str.strip with no argument
(modelled on the ASCII range). -/
def isSpace (c : Char) : Bool :=
  c == ' ' || c == '\t' || c == '\n' || c == '\r' || c == '\x0b' || c == '\x0c'

/-- Python str.lower, modelled on the ASCII range: maps A-Z to a-z and
leaves every other character unchanged. -/
def lowerChar (c : Char) : Char :=
  if 'A' ≤ c && c ≤ 'Z' then Char.ofNat (c.toNat + 32) else c

/-- Python str.strip: drop the characters satisfying p from both ends. -/
def stripBy (p : Char → Bool) (s : PyStr) : PyStr :=
  List.rdropWhile p (s.dropWhile p)

/-- The substitution re.sub applied to the pattern [^a-z0-9]+ with
replacement "-": each maximal run of characters outside [a-z0-9] becomes a
single dash (src/generate.py line 16). -/
def subRuns : PyStr → PyStr
  | [] => []
  | c :: cs =>
    if isAlnum c then c :: subRuns cs
    else
      match subRuns cs with
      | '-' :: rest => '-' :: rest
      | r => '-' :: r

/-- The substitution re.sub applied to the dash-run pattern with
replacement "-": runs of two or more dashes collapse to one
(src/generate.py line 17). -/
def collapseDashes : PyStr → PyStr
  | [] => []
  | [c] => [c]
  | c :: d :: cs =>
    if c == '-' && d == '-' then collapseDashes (d :: cs)
    else c :: collapseDashes (d :: cs)

/-- slugify from src/generate.py lines 14-18 (src/generate2.py is identical):
lowercase, strip whitespace, replace runs outside [a-z0-9] by a dash,
collapse repeated dashes, strip dashes, and fall back to "logo" when the
result is empty. -/
def slugify (text : PyStr) : PyStr :=
  let t1 := stripBy isSpace (text.map lowerChar)
  let t2 := collapseDashes (subRuns t1)
  let t3 := stripBy (fun c => c == '-') t2
  if t3 = [] then "logo".toList else t3

/-- A character allowed in a slug: [a-z0-9-]. -/
def isSlugChar (c : Char) : Bool := isAlnum c || c == '-'

/-- No two adjacent characters of the list are both dashes. -/
def noDD : PyStr → Bool
  | [] => true
  | [_] => true
  | c :: d :: cs => !(c == '-' && d == '-') && noDD (d :: cs)

/-- The slug shape: nonempty, only characters of [a-z0-9-], no leading
dash, no trailing dash, and no two adjacent dashes. -/
def isSlug (s : PyStr) : Bool :=
  !s.isEmpty && s.all isSlugChar
    && !(s.head? == some '-') && !(s.getLast? == some '-') && noDD s

/-- The relation between adjacent characters of a dash-collapsed string:
they are not both dashes. -/
def DashFree (a b : Char) : Prop := ¬(a = '-' ∧ b = '-')

/-- The character of a decimal digit (only digits 0-9 are ever passed). -/
def digitChar : Nat → Char
  | 0 => '0' | 1 => '1' | 2 => '2' | 3 => '3' | 4 => '4'
  | 5 => '5' | 6 => '6' | 7 => '7' | 8 => '8' | _ => '9'

/-- Decimal representation of a natural number by repeated division; the
fuel argument only forces termination (n+1 is always enough). -/
def natReprAux : Nat → Nat → PyStr
  | 0, _ => []
  | fuel + 1, n =>
    if n < 10 then [digitChar n]
    else natReprAux fuel (n / 10) ++ [digitChar (n % 10)]

/-- Python "%d" of a non-negative integer. -/
def natRepr (n : Nat) : PyStr := natReprAux (n + 1) n

/-- The Python format spec 02d applied to a non-negative id: zero-pad the
decimal representation to width two. -/
def padId (n : Nat) : PyStr := if n < 10 then '0' :: natRepr n else natRepr n

/-- The filename computed at src/generate.py line 122:
zero-padded id, dash, slug of the title truncated to 60, ".png". -/
def fname1 (i : Nat) (title : PyStr) : PyStr :=
  padId i ++ '-' :: ((slugify title).take 60 ++ ".png".toList)

/-- The filename computed at src/generate2.py line 112:
zero-padded id, dash, slug of the title truncated to 70, ".png". -/
def fname2 (i : Nat) (title : PyStr) : PyStr :=
  padId i ++ '-' :: ((slugify title).take 70 ++ ".png".toList)

/-! ### JSON values, Python exceptions, request_image -/

/-- A JSON value, the model of what json.loads returns. -/
inductive JVal where
  | jnull
  | jbool (b : Bool)
  | jnum (n : Int)
  | jstr (s : PyStr)
  | jarr (l : List JVal)
  | jobj (l : List (PyStr × JVal))

/-- A JSON object: the decoded vendor response body. -/
abbrev JObj := List (PyStr × JVal)

/-- Image bytes. -/
abbrev Bytes := List Nat

/-- A Python exception, as far as the scripts distinguish them.  runtimeError
carries the message and the cause installed by raise ... from e. -/
inductive PyExc where
  | httpError (code : Nat) (body : PyStr)
  | urlError (msg : PyStr)
  | runtimeError (msg : PyStr) (cause : Option PyExc)
  | indexError (msg : PyStr)
  | typeError
  | attributeError

/-- Python except urllib.error.URLError: HTTPError is a subclass of
URLError, so both are caught. -/
def isURLError : PyExc → Bool
  | .urlError _ => true
  | .httpError _ _ => true
  | _ => false

/-- Python str(e) for the exceptions the scripts interpolate into messages,
modelled after urllib's formatting. -/
def strOfExc : PyExc → PyStr
  | .urlError m => "<urlopen error ".toList ++ m ++ ['>']
  | .httpError c m => "HTTP Error ".toList ++ natRepr c ++ ": ".toList ++ m
  | .runtimeError m _ => m
  | .indexError m => m
  | .typeError => "TypeError".toList
  | .attributeError => "AttributeError".toList

/-- Hexadecimal digit character. -/
def hexDigit (n : Nat) : Char :=
  if n < 10 then digitChar n
  else if n = 10 then 'a' else if n = 11 then 'b' else if n = 12 then 'c'
  else if n = 13 then 'd' else if n = 14 then 'e' else 'f'

/-- The json.dumps escaping of one character inside a string literal
(modelled for the ASCII range: quote, backslash, and the control
characters; other characters are emitted as themselves). -/
def escapeChar (c : Char) : PyStr :=
  if c = '"' then ['\\', '"']
  else if c = '\\' then ['\\', '\\']
  else if c = '\n' then ['\\', 'n']
  else if c = '\t' then ['\\', 't']
  else if c = '\r' then ['\\', 'r']
  else if c.toNat < 32 then
    ['\\', 'u', '0', '0', hexDigit (c.toNat / 16), hexDigit (c.toNat % 16)]
  else [c]

mutual

/-- json.dumps with default separators, modelled for the ASCII range. -/
def dumps : JVal → PyStr
  | .jnull => "null".toList
  | .jbool true => "true".toList
  | .jbool false => "false".toList
  | .jnum n => if n < 0 then '-' :: natRepr n.natAbs else natRepr n.natAbs
  | .jstr s => '"' :: (s.flatMap escapeChar ++ ['"'])
  | .jarr l => '[' :: (dumpsArr l ++ [']'])
  | .jobj l => '\x7b' :: (dumpsObj l ++ ['\x7d'])

/-- Array elements, separated by ", ". -/
def dumpsArr : List JVal → PyStr
  | [] => []
  | [v] => dumps v
  | v :: vs => dumps v ++ ',' :: ' ' :: dumpsArr vs

/-- Object entries "key": value, separated by ", ". -/
def dumpsObj : List (PyStr × JVal) → PyStr
  | [] => []
  | [(k, v)] => '"' :: (k.flatMap escapeChar ++ '"' :: ':' :: ' ' :: dumps v)
  | (k, v) :: kvs =>
    '"' :: (k.flatMap escapeChar ++ '"' :: ':' :: ' ' :: dumps v) ++ ',' :: ' ' :: dumpsObj kvs

end

/-- Python truthiness of a JSON value. -/
def truthy : JVal → Bool
  | .jnull => false
  | .jbool b => b
  | .jnum n => decide (n ≠ 0)
  | .jstr s => !s.isEmpty
  | .jarr l => !l.isEmpty
  | .jobj l => !l.isEmpty

/-- payload.get(k, d) on the decoded response object. -/
def dictGet (kvs : JObj) (k : PyStr) (d : JVal) : JVal :=
  (kvs.lookup k).getD d

/-- Python indexing [0] as applied to the "data" value: the first element
of a list, IndexError on an empty list (indexing a non-list value raises;
those exceptions are collapsed to typeError). -/
def index0 : JVal → Except PyExc JVal
  | .jarr [] => .error (.indexError ("list index out of range".toList))
  | .jarr (x :: _) => .ok x
  | _ => .error .typeError

/-- data.get(k) with default None on the first data element; AttributeError
when the element is not an object. -/
def elemGet (v : JVal) (k : PyStr) : Except PyExc JVal :=
  match v with
  | .jobj kvs => .ok ((kvs.lookup k).getD .jnull)
  | _ => .error .attributeError

/-- request_image from src/generate.py lines 21-67.  The stdlib effects are
parameters: primary is the outcome of the POST urlopen + json.loads (the
decoded body, or the exception raised), fetch is the secondary GET by url,
b64dec is base64.b64decode.  An HTTPError from the primary request is
re-raised as a RuntimeError carrying the status code and body; a URLError
from the secondary fetch is re-raised as a RuntimeError carrying the cause;
a payload whose first data element has neither field raises the RuntimeError
with the json.dumps preview truncated to 500 characters. -/
def request_image1 (b64dec : PyStr → Bytes) (fetch : PyStr → Except PyExc Bytes)
    (primary : Except PyExc JObj) : Except PyExc Bytes :=
  match primary with
  | .error (.httpError code body) =>
    .error (.runtimeError ("OpenAI Images API failed (".toList ++ natRepr code
      ++ "): ".toList ++ body) (some (.httpError code body)))
  | .error e => .error e
  | .ok payload =>
    match index0 (dictGet payload ("data".toList) (.jarr [.jobj []])) with
    | .error e => .error e
    | .ok data =>
      match elemGet data ("b64_json".toList), elemGet data ("url".toList) with
      | .error e, _ => .error e
      | .ok _, .error e => .error e
      | .ok b64, .ok url =>
        if truthy b64 then
          match b64 with
          | .jstr s => .ok (b64dec s)
          | _ => .error .typeError
        else if truthy url then
          match url with
          | .jstr u =>
            match fetch u with
            | .ok bs => .ok bs
            | .error e =>
              if isURLError e then
                .error (.runtimeError ("Failed to download image: ".toList
                  ++ strOfExc e) (some e))
              else .error e
          | _ => .error .typeError
        else
          .error (.runtimeError ("Unexpected response: ".toList
            ++ (dumps (.jobj payload)).take 500) none)

/-- request_image from src/generate2.py lines 21-55: identical to the first
variant except that the secondary fetch is not wrapped in a try block, so
an exception it raises propagates as-is. -/
def request_image2 (b64dec : PyStr → Bytes) (fetch : PyStr → Except PyExc Bytes)
    (primary : Except PyExc JObj) : Except PyExc Bytes :=
  match primary with
  | .error (.httpError code body) =>
    .error (.runtimeError ("OpenAI Images API failed (".toList ++ natRepr code
      ++ "): ".toList ++ body) (some (.httpError code body)))
  | .error e => .error e
  | .ok payload =>
    match index0 (dictGet payload ("data".toList) (.jarr [.jobj []])) with
    | .error e => .error e
    | .ok data =>
      match elemGet data ("b64_json".toList), elemGet data ("url".toList) with
      | .error e, _ => .error e
      | .ok _, .error e => .error e
      | .ok b64, .ok url =>
        if truthy b64 then
          match b64 with
          | .jstr s => .ok (b64dec s)
          | _ => .error .typeError
        else if truthy url then
          match url with
          | .jstr u => fetch u
          | _ => .error .typeError
        else
          .error (.runtimeError ("Unexpected response: ".toList
            ++ (dumps (.jobj payload)).take 500) none)

/-- The shape of the protocol failure of request_image: a RuntimeError
raised without a cause (the other RuntimeErrors of the scripts carry one). -/
def isProtocolError : Except PyExc Bytes → Bool
  | .error (.runtimeError _ none) => true
  | _ => false

/-- The shape of the wrapped network failure: a RuntimeError with a cause. -/
def isWrappedError : Except PyExc Bytes → Bool
  | .error (.runtimeError _ (some _)) => true
  | _ => false

/-! ### Records, output directory, batch loop -/

/-- A prompt record, one element of the decoded prompts file. -/
structure PromptRec where
  id : Nat
  title : PyStr
  prompt : PyStr
deriving DecidableEq

/-- A manifest entry: the prompt record plus the computed filename
(src/generate.py lines 124-129, src/generate2.py lines 122-127). -/
structure GeneratedItem where
  id : Nat
  title : PyStr
  prompt : PyStr
  file : PyStr
deriving DecidableEq

/-- The manifest entry built from a record and its filename. -/
def toItem (r : PromptRec) (f : PyStr) : GeneratedItem :=
  ⟨r.id, r.title, r.prompt, f⟩

/-- A file's stored content: binary image bytes or text. -/
inductive FileData where
  | bin (b : Bytes)
  | txt (s : PyStr)
deriving DecidableEq

/-- st_size of a file. -/
def FileData.size : FileData → Nat
  | .bin b => b.length
  | .txt s => s.length

/-- The output directory, as a map from filename to file content. -/
def FS := PyStr → Option FileData

/-- Writing a file into the directory. -/
def FS.write (fs : FS) (name : PyStr) (d : FileData) : FS :=
  fun n => if n = name then some d else fs n

/-- The resume check of src/generate2.py line 115:
out_path.exists() and out_path.stat().st_size > 0. -/
def FS.existsNonEmpty (fs : FS) (name : PyStr) : Bool :=
  match fs name with
  | some d => decide (0 < d.size)
  | none => false

/-- The loop state of main: the directory contents, the accumulated
items_out list, and the number of image requests performed so far. -/
structure RunState where
  fs : FS
  items : List GeneratedItem
  calls : Nat

/-- The batch loop of src/generate2.py lines 111-127 (resume mode): for
each record in order compute the target filename; when a non-empty file
already exists there, skip the request; otherwise perform the request (req
abstracts request_image with the network arguments fixed) and write the
returned bytes; append the manifest entry in both branches.  A raised
exception aborts the loop, leaving the state written so far. -/
def runBatch2 (req : PromptRec → Except PyExc Bytes) :
    List PromptRec → RunState → Except (PyExc × RunState) RunState
  | [], s => .ok s
  | r :: rs, s =>
    let fname := fname2 r.id r.title
    if s.fs.existsNonEmpty fname then
      runBatch2 req rs ⟨s.fs, s.items ++ [toItem r fname], s.calls⟩
    else
      match req r with
      | .error e => .error (e, s)
      | .ok bs =>
        runBatch2 req rs
          ⟨s.fs.write fname (.bin bs), s.items ++ [toItem r fname], s.calls + 1⟩

/-- The batch loop of src/generate.py lines 118-129 (no resume): request
every record, write the bytes, append the manifest entry. -/
def runBatch1 (req : PromptRec → Except PyExc Bytes) :
    List PromptRec → RunState → Except (PyExc × RunState) RunState
  | [], s => .ok s
  | r :: rs, s =>
    match req r with
    | .error e => .error (e, s)
    | .ok bs =>
      let fname := fname1 r.id r.title
      runBatch1 req rs
        ⟨s.fs.write fname (.bin bs), s.items ++ [toItem r fname], s.calls + 1⟩

/-- The request count of a completed run. -/
def callsOf : Except (PyExc × RunState) RunState → Option Nat
  | .ok s => some s.calls
  | .error _ => none

/-- The expected target paths of a prompt set under the resume loop, as a
set (duplicates removed). -/
def expectedPaths (recs : List PromptRec) : List PyStr :=
  (recs.map (fun r => fname2 r.id r.title)).dedup

/-- The number of expected target paths at which the directory already
holds a non-empty file. -/
def preexistingCount (fs : FS) (recs : List PromptRec) : Nat :=
  (expectedPaths recs).countP (fun p => fs.existsNonEmpty p)

/-! ### Gallery renderer -/

/-- Python "\n".join. -/
def joinNL : List PyStr → PyStr
  | [] => []
  | [x] => x
  | x :: xs => x ++ '\n' :: joinNL xs

/-- Fixed text of a figure block before the first file interpolation. -/
def figA : PyStr := "<figure>\n  <a href=\"".toList

/-- Fixed text between the two file interpolations. -/
def figB : PyStr := "\"><img src=\"".toList

/-- Fixed text between the second file interpolation and the id. -/
def figC : PyStr := "\" loading=\"lazy\" /></a>\n  <figcaption><strong>".toList

/-- Fixed text between the id and the title. -/
def figD : PyStr := ".</strong> ".toList

/-- Fixed text closing the caption in src/generate2.py (no prompt). -/
def figE2 : PyStr := "</figcaption>\n</figure>".toList

/-- Fixed text between the title and the prompt in src/generate.py. -/
def figP : PyStr := "<br/><small>".toList

/-- Fixed text closing the caption in src/generate.py. -/
def figE1 : PyStr := "</small></figcaption>\n</figure>".toList

/-- One gallery figure of src/generate2.py lines 61-66, after .strip():
anchor and image on the file, caption with zero-padded id and title. -/
def figBlock2 (it : GeneratedItem) : PyStr :=
  figA ++ (it.file ++ (figB ++ (it.file ++ (figC ++
    (padId it.id ++ (figD ++ (it.title ++ figE2)))))))

/-- One gallery figure of src/generate.py lines 73-78, after .strip():
as figBlock2, plus the prompt in a small tag. -/
def figBlock1 (it : GeneratedItem) : PyStr :=
  figA ++ (it.file ++ (figB ++ (it.file ++ (figC ++
    (padId it.id ++ (figD ++ (it.title ++ (figP ++ (it.prompt ++ figE1)))))))))

/-- The fixed HTML of src/generate2.py lines 70-85 before the thumbs
interpolation. -/
def gal2Pre : PyStr :=
  ("<!doctype html>\n<meta charset=\"utf-8\" />\n<title>T Alchemy — Logo Exploration (Lockups)</title>\n<style>\n  :root \x7b color-scheme: dark; \x7d\n  body \x7b margin: 24px; font: 14px/1.4 ui-sans-serif, system-ui; background: #0b0f14; color: #e8edf2; \x7d\n  h1 \x7b font-size: 20px; margin: 0 0 8px; \x7d\n  p \x7b margin: 0 0 18px; color: #b7c2cc; \x7d\n  .grid \x7b display: grid; grid-template-columns: repeat(auto-fill, minmax(260px, 1fr)); gap: 16px; \x7d\n  figure \x7b margin: 0; padding: 12px; border: 1px solid #1e2a36; border-radius: 14px; background: #0f1620; \x7d\n  img \x7b width: 100%; height: auto; border-radius: 10px; display: block; background: #ffffff; \x7d\n  figcaption \x7b margin-top: 10px; color: #b7c2cc; \x7d\n</style>\n<h1>T Alchemy — 50 Lockup Concepts (B/W PNG)</h1>\n<p>Generated concepts for review.</p>\n<div class=\"grid\">\n").toList

/-- The fixed HTML of src/generate.py lines 82-97 before the out_dir
interpolation. -/
def gal1PreA : PyStr :=
  ("<!doctype html>\n<meta charset=\"utf-8\" />\n<title>T Alchemy — Logo Exploration</title>\n<style>\n  :root \x7b color-scheme: dark; \x7d\n  body \x7b margin: 24px; font: 14px/1.4 ui-sans-serif, system-ui; background: #0b0f14; color: #e8edf2; \x7d\n  h1 \x7b font-size: 20px; margin: 0 0 8px; \x7d\n  p \x7b margin: 0 0 18px; color: #b7c2cc; \x7d\n  .grid \x7b display: grid; grid-template-columns: repeat(auto-fill, minmax(260px, 1fr)); gap: 16px; \x7d\n  figure \x7b margin: 0; padding: 12px; border: 1px solid #1e2a36; border-radius: 14px; background: #0f1620; \x7d\n  img \x7b width: 100%; height: auto; border-radius: 10px; display: block; background: #ffffff; \x7d\n  figcaption \x7b margin-top: 10px; color: #b7c2cc; \x7d\n  small \x7b color: #8ea2b2; \x7d\n</style>\n<h1>T Alchemy — 50 Logo Concepts (PNG)</h1>\n<p>Generated concepts for review. Files are in <code>").toList

/-- The fixed HTML of src/generate.py between the out_dir and thumbs
interpolations. -/
def gal1PreB : PyStr := ("</code>.</p>\n<div class=\"grid\">\n").toList

/-- The fixed HTML after the thumbs interpolation (both variants). -/
def galPost : PyStr := "\n</div>\n".toList

/-- write_gallery of src/generate2.py lines 58-89, as the HTML text it
writes to index.html: a pure function of the manifest list. -/
def galleryHtml2 (items : List GeneratedItem) : PyStr :=
  gal2Pre ++ (joinNL (items.map figBlock2) ++ galPost)

/-- write_gallery of src/generate.py lines 70-102, as the HTML text it
writes to index.html: a pure function of the output directory name and the
manifest list. -/
def galleryHtml1 (outDir : PyStr) (items : List GeneratedItem) : PyStr :=
  gal1PreA ++ (outDir ++ (gal1PreB ++ (joinNL (items.map figBlock1) ++ galPost)))

/-- The pattern whose occurrences the gallery claims count. -/
def figPat : PyStr := '<' :: "figure>".toList

/-- Number of positions of s at which pat occurs (as a contiguous
substring). -/
def countSub (pat : PyStr) : PyStr → Nat
  | [] => 0
  | c :: cs => (if pat.isPrefixOf (c :: cs) then 1 else 0) + countSub pat cs

/-- Every position of F at which pat could begin a match is decided inside
F: either at least |pat| characters of F remain there, or the remaining
characters of F already fail to be an initial segment of pat.  Appending
any continuation to such an F cannot create or destroy occurrences
straddling its end. -/
def SafeFor (pat : PyStr) : PyStr → Bool
  | [] => true
  | c :: cs =>
    (decide (pat.length ≤ (c :: cs).length) || !((c :: cs).isPrefixOf pat))
      && SafeFor pat cs

/-! ### main -/

/-- Outcome of a process run: the exit status returned by main (none
models an exception propagating out of main, which the raise SystemExit
wrapper turns into a non-zero failure with a stack trace), the error-stream
lines the script printed, the resulting directory, and the number of image
requests performed. -/
structure MainOut where
  exit : Option Nat
  stderrLines : List PyStr
  fs : FS
  calls : Nat

/-- The JSON value of one manifest entry. -/
def itemJson (it : GeneratedItem) : JVal :=
  .jobj [("id".toList, .jnum it.id), ("title".toList, .jstr it.title),
    ("prompt".toList, .jstr it.prompt), ("file".toList, .jstr it.file)]

/-- json.dumps(items_out, indent=2), modelled up to indentation
whitespace: the generated.json content. -/
def manifestDoc (items : List GeneratedItem) : PyStr :=
  dumps (.jarr (items.map itemJson))

/-- main from src/generate2.py lines 92-132.  envApiKey models
os.environ.get("OPENAI_API_KEY", ""); recs the decoded prompts file; req
the image request with the network abstracted; fs0 the contents of the
output directory (an empty map for a fresh timestamped directory, the
existing contents when LATEST_OUT_DIR resumes into one).  The credential
check precedes every other effect; an exception from the batch propagates;
a completed batch writes generated.json and index.html and returns 0. -/
def main2 (envApiKey : Option PyStr) (recs : List PromptRec)
    (req : PromptRec → Except PyExc Bytes) (fs0 : FS) : MainOut :=
  let apiKey := stripBy isSpace (envApiKey.getD [])
  if apiKey = [] then
    ⟨some 2, ["Missing OPENAI_API_KEY".toList], fs0, 0⟩
  else
    match runBatch2 req recs ⟨fs0, [], 0⟩ with
    | .error (_, s) => ⟨none, [], s.fs, s.calls⟩
    | .ok s =>
      let fs1 := s.fs.write ("generated.json".toList) (.txt (manifestDoc s.items))
      let fs2 := fs1.write ("index.html".toList) (.txt (galleryHtml2 s.items))
      ⟨some 0, [], fs2, s.calls⟩

/-- main from src/generate.py lines 105-134: as main2 but without resume,
and the gallery also interpolates the output directory name. -/
def main1 (envApiKey : Option PyStr) (outDir : PyStr) (recs : List PromptRec)
    (req : PromptRec → Except PyExc Bytes) (fs0 : FS) : MainOut :=
  let apiKey := stripBy isSpace (envApiKey.getD [])
  if apiKey = [] then
    ⟨some 2, ["Missing OPENAI_API_KEY".toList], fs0, 0⟩
  else
    match runBatch1 req recs ⟨fs0, [], 0⟩ with
    | .error (_, s) => ⟨none, [], s.fs, s.calls⟩
    | .ok s =>
      let fs1 := s.fs.write ("generated.json".toList) (.txt (manifestDoc s.items))
      let fs2 := fs1.write ("index.html".toList) (.txt (galleryHtml1 outDir s.items))
      ⟨some 0, [], fs2, s.calls⟩

/-! ### Concrete inputs for the spot checks -/

/-- A concrete prompt record. -/
def spotRec1 : PromptRec := ⟨1, "Bold T Mark".toList, "p1".toList⟩

/-- A second concrete prompt record with a distinct id and title. -/
def spotRec2 : PromptRec := ⟨2, "Ember".toList, "p2".toList⟩

/-- A request stub that always returns one byte of image data. -/
def spotReq : PromptRec → Except PyExc Bytes := fun _ => .ok [7]

/-- A request stub returning different bytes. -/
def spotReqB : PromptRec → Except PyExc Bytes := fun _ => .ok [9]

/-- An empty output directory. -/
def spotFs0 : FS := fun _ => none

/-- A directory already holding a non-empty file at spotRec1's target path. -/
def spotFsK : FS :=
  fun n => if n = fname2 1 ("Bold T Mark".toList) then some (.bin [5]) else none

/-- The state a run of the resume loop over [spotRec1] reaches from the
empty directory with spotReq. -/
def spotS2 : RunState :=
  ⟨FS.write spotFs0 (fname2 1 ("Bold T Mark".toList)) (.bin [7]),
    [toItem spotRec1 (fname2 1 ("Bold T Mark".toList))], 1⟩

/-- As spotS2, with spotReqB. -/
def spotS2b : RunState :=
  ⟨FS.write spotFs0 (fname2 1 ("Bold T Mark".toList)) (.bin [9]),
    [toItem spotRec1 (fname2 1 ("Bold T Mark".toList))], 1⟩

/-- The state a run of the no-resume loop over [spotRec1] reaches from the
empty directory with spotReq. -/
def spotS1 : RunState :=
  ⟨FS.write spotFs0 (fname1 1 ("Bold T Mark".toList)) (.bin [7]),
    [toItem spotRec1 (fname1 1 ("Bold T Mark".toList))], 1⟩

/-- As spotS1, with spotReqB. -/
def spotS1b : RunState :=
  ⟨FS.write spotFs0 (fname1 1 ("Bold T Mark".toList)) (.bin [9]),
    [toItem spotRec1 (fname1 1 ("Bold T Mark".toList))], 1⟩

/-- The state a resumed run over [spotRec1, spotRec2] reaches from spotFsK:
the first record is skipped, the second is requested. -/
def spotSK : RunState :=
  ⟨FS.write spotFsK (fname2 2 ("Ember".toList)) (.bin [7]),
    [toItem spotRec1 (fname2 1 ("Bold T Mark".toList)),
      toItem spotRec2 (fname2 2 ("Ember".toList))], 1⟩

/-! ### Theorems -/

lemma noDD_iff_chain : ∀ (s : PyStr), noDD s = true ↔ List.Chain' DashFree s
  | [] => by simp [noDD]
  | [c] => by simp [noDD]
  | c :: d :: cs => by
    rw [noDD, Bool.and_eq_true, List.chain'_cons]
    have ih := noDD_iff_chain (d :: cs)
    constructor
    · rintro ⟨h1, h2⟩
      refine ⟨fun hcd => ?_, ih.mp h2⟩
      simp [hcd.1, hcd.2] at h1
    · rintro ⟨h1, h2⟩
      refine ⟨?_, ih.mpr h2⟩
      simp only [Bool.not_eq_true', Bool.and_eq_false_iff, beq_eq_false_iff_ne, ne_eq]
      by_contra hcd
      push_neg at hcd
      exact h1 ⟨hcd.1, hcd.2⟩

lemma mem_subRuns : ∀ {s : PyStr} {c : Char}, c ∈ subRuns s → isSlugChar c = true
  | [], c, h => by simp [subRuns] at h
  | a :: cs, c, h => by
    rw [subRuns] at h
    by_cases ha : isAlnum a
    · rw [if_pos ha] at h
      rcases List.mem_cons.mp h with rfl | h
      · simp [isSlugChar, ha]
      · exact mem_subRuns h
    · rw [if_neg ha] at h
      have hdash : isSlugChar '-' = true := by decide
      split at h
      next rest heq =>
        rcases List.mem_cons.mp h with rfl | h
        · exact hdash
        · exact mem_subRuns (heq ▸ List.mem_cons_of_mem _ h)
      next r hne =>
        rcases List.mem_cons.mp h with rfl | h
        · exact hdash
        · exact mem_subRuns h

lemma mem_collapseDashes : ∀ {s : PyStr} {c : Char}, c ∈ collapseDashes s → c ∈ s
  | [], c, h => by simp [collapseDashes] at h
  | [a], c, h => by simpa [collapseDashes] using h
  | a :: b :: cs, c, h => by
    rw [collapseDashes] at h
    by_cases hab : (a == '-' && b == '-') = true
    · rw [if_pos hab] at h
      exact List.mem_cons_of_mem _ (mem_collapseDashes h)
    · rw [if_neg hab] at h
      rcases List.mem_cons.mp h with rfl | h
      · exact List.mem_cons_self _ _
      · exact List.mem_cons_of_mem _ (mem_collapseDashes h)

lemma head?_collapseDashes : ∀ (s : PyStr), (collapseDashes s).head? = s.head?
  | [] => rfl
  | [_] => rfl
  | a :: b :: cs => by
    rw [collapseDashes]
    by_cases hab : (a == '-' && b == '-') = true
    · rw [if_pos hab, head?_collapseDashes (b :: cs)]
      rw [Bool.and_eq_true, beq_iff_eq, beq_iff_eq] at hab
      simp [hab.1, hab.2]
    · rw [if_neg hab]
      rfl

lemma chain_collapseDashes : ∀ (s : PyStr), List.Chain' DashFree (collapseDashes s)
  | [] => by simp [collapseDashes]
  | [a] => by simp [collapseDashes]
  | a :: b :: cs => by
    rw [collapseDashes]
    by_cases hab : (a == '-' && b == '-') = true
    · rw [if_pos hab]
      exact chain_collapseDashes (b :: cs)
    · rw [if_neg hab]
      rw [List.chain'_cons']
      refine ⟨?_, chain_collapseDashes (b :: cs)⟩
      intro y hy
      rw [head?_collapseDashes (b :: cs)] at hy
      cases hy
      intro hcd
      simp [hcd.1, hcd.2] at hab

lemma lowerChar_slugChar {c : Char} (h : isSlugChar c = true) : lowerChar c = c := by
  rw [lowerChar, if_neg]
  intro hAZ
  rw [Bool.and_eq_true, decide_eq_true_eq, decide_eq_true_eq] at hAZ
  rw [isSlugChar, Bool.or_eq_true, isAlnum, Bool.or_eq_true,
    Bool.and_eq_true, Bool.and_eq_true] at h
  rcases h with (⟨h1, _⟩ | ⟨_, h2⟩) | h3
  · rw [decide_eq_true_eq] at h1
    exact absurd (le_trans h1 hAZ.2) (by decide)
  · rw [decide_eq_true_eq] at h2
    exact absurd (le_trans hAZ.1 h2) (by decide)
  · rw [beq_iff_eq] at h3
    subst h3
    exact absurd hAZ.1 (by decide)

lemma not_space_of_slugChar {c : Char} (h : isSlugChar c = true) : isSpace c = false := by
  by_contra hs
  rw [Bool.not_eq_false, isSpace] at hs
  simp only [Bool.or_eq_true, beq_iff_eq] at hs
  rcases hs with ((((rfl | rfl) | rfl) | rfl) | rfl) | rfl <;> exact absurd h (by decide)

lemma map_lowerChar_eq_self {s : PyStr} (h : ∀ c ∈ s, isSlugChar c = true) :
    s.map lowerChar = s := by
  induction s with
  | nil => rfl
  | cons a t ih =>
    rw [List.map_cons, lowerChar_slugChar (h a (List.mem_cons_self _ _)),
      ih (fun c hc => h c (List.mem_cons_of_mem _ hc))]

lemma mem_stripBy {p : Char → Bool} {s : PyStr} {c : Char} (h : c ∈ stripBy p s) : c ∈ s := by
  rw [stripBy] at h
  exact (List.dropWhile_suffix p).mem (( List.rdropWhile_prefix p _).mem h)

lemma head?_dropWhile {p : Char → Bool} :
    ∀ {s : PyStr} {c : Char}, (s.dropWhile p).head? = some c → p c = false
  | [], c, h => by simp at h
  | a :: t, c, h => by
    by_cases ha : p a = true
    · rw [List.dropWhile_cons_of_pos ha] at h
      exact head?_dropWhile h
    · rw [List.dropWhile_cons_of_neg (by simp [ha])] at h
      rw [List.head?_cons, Option.some.injEq] at h
      subst h
      simpa using ha

lemma head?_of_ne_nil_of_pre {l₁ l₂ : PyStr} {c : Char}
    (hp : l₁ <+: l₂) (h : l₁.head? = some c) : l₂.head? = some c := by
  rcases hp with ⟨t, rfl⟩
  cases l₁ with
  | nil => cases h
  | cons a l => exact h

lemma head?_stripBy {p : Char → Bool} {s : PyStr} {c : Char}
    (h : (stripBy p s).head? = some c) : p c = false := by
  rw [stripBy] at h
  exact head?_dropWhile (head?_of_ne_nil_of_pre ( List.rdropWhile_prefix p _) h)

lemma getLast?_stripBy {p : Char → Bool} {s : PyStr} {c : Char}
    (h : (stripBy p s).getLast? = some c) : p c = false := by
  rw [stripBy] at h
  have hne : List.rdropWhile p (s.dropWhile p) ≠ [] := by
    intro he
    rw [he] at h
    cases h
  have h2 := List.rdropWhile_last_not p (s.dropWhile p) hne
  rw [List.getLast?_eq_getLast _ hne, Option.some.injEq] at h
  rw [← h]
  simpa using h2

lemma chain_stripBy {p : Char → Bool} {s : PyStr} (h : List.Chain' DashFree s) :
    List.Chain' DashFree (stripBy p s) := by
  rw [stripBy]
  exact List.Chain'.prefix ( List.Chain'.suffix h (List.dropWhile_suffix p))
    ( List.rdropWhile_prefix p _)

lemma stripBy_eq_self {p : Char → Bool} {s : PyStr}
    (hh : ∀ c, s.head? = some c → p c = false)
    (hl : ∀ c, s.getLast? = some c → p c = false) : stripBy p s = s := by
  rw [stripBy]
  have h1 : s.dropWhile p = s := by
    cases s with
    | nil => rfl
    | cons a t =>
      have := hh a rfl
      simp [List.dropWhile_cons, this]
  rw [h1, List.rdropWhile_eq_self_iff]
  intro hne
  have hx := hl _ (List.getLast?_eq_getLast s hne)
  simp [hx]

lemma subRuns_eq_self :
    ∀ {s : PyStr}, (∀ c ∈ s, isSlugChar c = true) → List.Chain' DashFree s →
      subRuns s = s
  | [], _, _ => rfl
  | a :: cs, hal, hch => by
    rw [subRuns]
    by_cases ha : isAlnum a = true
    · rw [if_pos ha,
        subRuns_eq_self (fun c hc => hal c (List.mem_cons_of_mem _ hc)) (List.Chain'.tail hch)]
    · have ha' : a = '-' := by
        have := hal a (List.mem_cons_self _ _)
        rw [isSlugChar, Bool.or_eq_true] at this
        rcases this with h | h
        · exact absurd h ha
        · exact beq_iff_eq.mp h
      rw [if_neg ha]
      subst ha'
      cases cs with
      | nil => rfl
      | cons b cs' =>
        have hbd : DashFree '-' b := (List.chain'_cons.mp hch).1
        have hbne : b ≠ '-' := fun hbe => hbd ⟨rfl, hbe⟩
        have hrec : subRuns (b :: cs') = b :: cs' :=
          subRuns_eq_self (fun c hc => hal c (List.mem_cons_of_mem _ hc))
            (List.Chain'.tail hch)
        rw [hrec]
        split
        next rest heq =>
          rw [List.cons.injEq] at heq
          exact absurd heq.1 hbne
        next r hne => rfl

lemma collapseDashes_eq_self :
    ∀ {s : PyStr}, List.Chain' DashFree s → collapseDashes s = s
  | [], _ => rfl
  | [_], _ => rfl
  | a :: b :: cs, hch => by
    rw [collapseDashes, if_neg, collapseDashes_eq_self (List.chain'_cons.mp hch).2]
    intro hab
    rw [Bool.and_eq_true, beq_iff_eq, beq_iff_eq] at hab
    exact (List.chain'_cons.mp hch).1 hab

lemma isSlug_unpack {s : PyStr} (h : isSlug s = true) :
    s ≠ [] ∧ (∀ c ∈ s, isSlugChar c = true) ∧
      (∀ c, s.head? = some c → c ≠ '-') ∧ (∀ c, s.getLast? = some c → c ≠ '-') ∧
      List.Chain' DashFree s := by
  rw [isSlug, Bool.and_eq_true, Bool.and_eq_true, Bool.and_eq_true, Bool.and_eq_true] at h
  obtain ⟨⟨⟨⟨h1, h2⟩, h3⟩, h4⟩, h5⟩ := h
  refine ⟨?_, ?_, ?_, ?_, (noDD_iff_chain s).mp h5⟩
  · intro he
    rw [he] at h1
    cases h1
  · intro c hc
    exact List.all_eq_true.mp h2 c hc
  · intro c hc hcd
    subst hcd
    rw [hc] at h3
    simp at h3
  · intro c hc hcd
    subst hcd
    rw [hc] at h4
    simp at h4

lemma slugify_eq_self {s : PyStr} (h : isSlug s = true) : slugify s = s := by
  obtain ⟨hne, hal, hhd, hlast, hch⟩ := isSlug_unpack h
  rw [slugify]
  have e1 : stripBy isSpace (s.map lowerChar) = s := by
    rw [map_lowerChar_eq_self hal]
    exact stripBy_eq_self
      (fun c hc => not_space_of_slugChar (hal c (by
        cases s with
        | nil => cases hc
        | cons a t =>
          rw [List.head?_cons, Option.some.injEq] at hc
          exact hc ▸ List.mem_cons_self _ _)))
      (fun c hc => not_space_of_slugChar (hal c (by
        have : c ∈ s := by
          have := List.getLast?_eq_getLast s hne
          rw [this, Option.some.injEq] at hc
          exact hc ▸ List.getLast_mem hne
        exact this)))
  rw [e1, subRuns_eq_self hal hch, collapseDashes_eq_self hch]
  have e2 : stripBy (fun c => c == '-') s = s := by
    refine stripBy_eq_self (fun c hc => ?_) (fun c hc => ?_)
    · simpa using hhd c hc
    · simpa using hlast c hc
  rw [e2, if_neg hne]

lemma isSlug_slugify (x : PyStr) : isSlug (slugify x) = true := by
  rw [slugify]
  set t1 := stripBy isSpace (x.map lowerChar) with ht1
  set t2 := collapseDashes (subRuns t1) with ht2
  set t3 := stripBy (fun c => c == '-') t2 with ht3
  by_cases h3 : t3 = []
  · rw [if_pos h3]
    decide
  · rw [if_neg h3]
    have hch2 : List.Chain' DashFree t2 := chain_collapseDashes (subRuns t1)
    have hch3 : List.Chain' DashFree t3 := chain_stripBy hch2
    have hal : ∀ c ∈ t3, isSlugChar c = true := fun c hc =>
      mem_subRuns (mem_collapseDashes (mem_stripBy hc))
    rw [isSlug]
    rw [Bool.and_eq_true, Bool.and_eq_true, Bool.and_eq_true, Bool.and_eq_true]
    refine ⟨⟨⟨⟨?_, ?_⟩, ?_⟩, ?_⟩, ?_⟩
    · simpa using h3
    · exact List.all_eq_true.mpr hal
    · rw [Bool.not_eq_true', beq_eq_false_iff_ne, ne_eq]
      intro hhd
      have := head?_stripBy (ht3 ▸ hhd)
      simp at this
    · rw [Bool.not_eq_true', beq_eq_false_iff_ne, ne_eq]
      intro hlst
      have := getLast?_stripBy (ht3 ▸ hlst)
      simp at this
    · exact (noDD_iff_chain t3).mpr hch3

lemma subRuns_of_no_alnum :
    ∀ {s : PyStr}, (∀ c ∈ s, isAlnum c = false) → subRuns s = [] ∨ subRuns s = ['-']
  | [], _ => Or.inl rfl
  | a :: cs, h => by
    rw [subRuns, if_neg (by simp [h a (List.mem_cons_self _ _)])]
    rcases subRuns_of_no_alnum (fun c hc => h c (List.mem_cons_of_mem _ hc)) with h1 | h1 <;>
      rw [h1] <;> exact Or.inr rfl

/-- C2: slugify is idempotent: for every input string x,
slugify (slugify x) = slugify x. -/
theorem slugify_idempotent (x : PyStr) : slugify (slugify x) = slugify x :=
  slugify_eq_self (isSlug_slugify x)

theorem slugify_idempotent_spot :
    slugify (slugify ("  Bold T Mark!! ".toList)) = slugify ("  Bold T Mark!! ".toList) :=
  slugify_idempotent ("  Bold T Mark!! ".toList)

/-- C3: slugify is total: for every input it returns a nonempty string over
[a-z0-9-] with no double, leading or trailing dash, and any input with no
ASCII-alphanumeric characters yields the fixed default token "logo". -/
theorem slugify_total (x : PyStr) :
    isSlug (slugify x) = true ∧
      ((∀ c ∈ x, isAlnum (lowerChar c) = false) → slugify x = "logo".toList) := by
  refine ⟨isSlug_slugify x, fun hsym => ?_⟩
  rw [slugify]
  have hno : ∀ c ∈ stripBy isSpace (x.map lowerChar), isAlnum c = false := by
    intro c hc
    rcases List.mem_map.mp (mem_stripBy hc) with ⟨c0, hc0, rfl⟩
    exact hsym c0 hc0
  have h3 : stripBy (fun c => c == '-')
      (collapseDashes (subRuns (stripBy isSpace (x.map lowerChar)))) = [] := by
    rcases subRuns_of_no_alnum hno with h1 | h1 <;> rw [h1] <;> rfl
  rw [h3, if_pos rfl]

theorem slugify_total_spot :
    slugify ("!?".toList) = "logo".toList ∧ isSlug (slugify ("!?".toList)) = true :=
  ⟨(slugify_total ("!?".toList)).2 (by decide), (slugify_total ("!?".toList)).1⟩

/-- C6: for the empty vendor response object the image request raises the
protocol failure carrying the payload preview truncated to 500 characters
(here the two-character preview of the empty object), and a batch record
hitting it aborts with the directory unchanged: no file is written. -/
theorem empty_payload_protocol (b64dec : PyStr → Bytes)
    (fetch : PyStr → Except PyExc Bytes) (fs0 : FS) (r : PromptRec) :
    request_image1 b64dec fetch (.ok []) =
      .error (.runtimeError ("Unexpected response: ".toList
        ++ (dumps (.jobj [])).take 500) none) ∧
    (dumps (.jobj [])).take 500 = ['\x7b', '\x7d'] ∧
    runBatch1 (fun _ => request_image1 b64dec fetch (.ok [])) [r] ⟨fs0, [], 0⟩ =
      .error (.runtimeError ("Unexpected response: ".toList
        ++ (dumps (.jobj [])).take 500) none, ⟨fs0, [], 0⟩) :=
  ⟨rfl, rfl, rfl⟩

theorem empty_payload_protocol_spot :
    request_image1 (fun _ => []) (fun _ => .ok []) (.ok []) =
      .error (.runtimeError ("Unexpected response: ".toList
        ++ (dumps (.jobj [])).take 500) none) :=
  (empty_payload_protocol (fun _ => []) (fun _ => .ok [])
    (fun _ => none) ⟨1, [], []⟩).1

/-- C5 counterexample: in the src/generate2.py variant a failing secondary
fetch propagates the raw URLError; the image request does not fail with an
error wrapping the underlying cause. -/
theorem secondary_fetch_unwrapped_cex :
    request_image2 (fun _ => []) (fun _ => .error (.urlError ("boom".toList)))
        (.ok [("data".toList, .jarr [.jobj [("url".toList, .jstr ("u".toList))]])]) =
      .error (.urlError ("boom".toList)) ∧
    isWrappedError (request_image2 (fun _ => [])
        (fun _ => .error (.urlError ("boom".toList)))
        (.ok [("data".toList, .jarr [.jobj [("url".toList, .jstr ("u".toList))]])]))
      = false :=
  ⟨rfl, rfl⟩

/-- C5 amended: when the primary response provides only a retrieval URL and
the secondary fetch fails with a URLError, the src/generate.py variant
fails with the RuntimeError wrapping the underlying cause, while the
src/generate2.py variant propagates the network error unwrapped; in both
variants the image request fails and the batch run aborts. -/
theorem secondary_fetch_failure (b64dec : PyStr → Bytes)
    (fetch : PyStr → Except PyExc Bytes) (payload : JObj) (d b : JVal)
    (u : PyStr) (e : PyExc) (r : PromptRec)
    (hd : index0 (dictGet payload ("data".toList) (.jarr [.jobj []])) = .ok d)
    (hb : elemGet d ("b64_json".toList) = .ok b) (hbf : truthy b = false)
    (hu : elemGet d ("url".toList) = .ok (.jstr u)) (hune : u ≠ [])
    (hf : fetch u = .error e) (he : isURLError e = true) :
    request_image1 b64dec fetch (.ok payload) =
      .error (.runtimeError ("Failed to download image: ".toList
        ++ strOfExc e) (some e)) ∧
    request_image2 b64dec fetch (.ok payload) = .error e ∧
    runBatch2 (fun _ => request_image2 b64dec fetch (.ok payload)) [r]
        ⟨(fun _ => none), [], 0⟩ =
      .error (e, ⟨(fun _ => none), [], 0⟩) := by
  have hut : truthy (.jstr u) = true := by
    rw [truthy, Bool.not_eq_true']
    cases u with
    | nil => exact absurd rfl hune
    | cons a t => rfl
  have h1 : request_image1 b64dec fetch (.ok payload) =
      .error (.runtimeError ("Failed to download image: ".toList
        ++ strOfExc e) (some e)) := by
    simp only [request_image1, hd, hb, hu, hbf, hut, hf, he]
    simp
  have h2 : request_image2 b64dec fetch (.ok payload) = .error e := by
    simp only [request_image2, hd, hb, hu, hbf, hut]
    simp
    exact hf
  refine ⟨h1, h2, ?_⟩
  simp only [runBatch2, FS.existsNonEmpty]
  rw [h2]
  simp

theorem secondary_fetch_failure_spot :
    request_image1 (fun _ => []) (fun _ => .error (.urlError ("boom".toList)))
        (.ok [("data".toList, .jarr [.jobj [("url".toList, .jstr ("u".toList))]])]) =
      .error (.runtimeError ("Failed to download image: ".toList
        ++ strOfExc (.urlError ("boom".toList))) (some (.urlError ("boom".toList)))) ∧
    runBatch2 (fun _ => request_image2 (fun _ => [])
        (fun _ => .error (.urlError ("boom".toList)))
        (.ok [("data".toList, .jarr [.jobj [("url".toList, .jstr ("u".toList))]])]))
        [⟨1, "a".toList, "p".toList⟩] ⟨(fun _ => none), [], 0⟩ =
      .error (.urlError ("boom".toList), ⟨(fun _ => none), [], 0⟩) := by
  have h := secondary_fetch_failure (fun _ => [])
    (fun _ => .error (.urlError ("boom".toList)))
    [("data".toList, .jarr [.jobj [("url".toList, .jstr ("u".toList))]])]
    (.jobj [("url".toList, .jstr ("u".toList))]) .jnull ("u".toList)
    (.urlError ("boom".toList)) ⟨1, "a".toList, "p".toList⟩
    rfl rfl rfl rfl (by decide) rfl rfl
  exact ⟨h.1, h.2.2⟩

lemma index0_error {v : JVal} {e : PyExc} (h : index0 v = .error e) :
    e = .indexError ("list index out of range".toList) ∨ e = .typeError := by
  cases v with
  | jarr l =>
    cases l with
    | nil =>
      left
      simp only [index0, Except.error.injEq] at h
      exact h.symm
    | cons x xs => simp [index0] at h
  | jnull => right; simp only [index0, Except.error.injEq] at h; exact h.symm
  | jbool b => right; simp only [index0, Except.error.injEq] at h; exact h.symm
  | jnum n => right; simp only [index0, Except.error.injEq] at h; exact h.symm
  | jstr s => right; simp only [index0, Except.error.injEq] at h; exact h.symm
  | jobj l => right; simp only [index0, Except.error.injEq] at h; exact h.symm

lemma elemGet_error {v : JVal} {k : PyStr} {e : PyExc}
    (h : elemGet v k = .error e) : e = .attributeError := by
  cases v <;> simp_all [elemGet]

lemma isProtocolError_error {e : PyExc} (h : isProtocolError (.error e) = true) :
    ∃ m, e = .runtimeError m none := by
  cases e with
  | runtimeError m c =>
    cases c with
    | none => exact ⟨m, rfl⟩
    | some c' => simp [isProtocolError] at h
  | httpError c b => simp [isProtocolError] at h
  | urlError m => simp [isProtocolError] at h
  | indexError m => simp [isProtocolError] at h
  | typeError => simp [isProtocolError] at h
  | attributeError => simp [isProtocolError] at h

/-- C9: a response whose data key holds an empty list fails by indexing the
empty list (IndexError), not through the protocol-error branch; the
protocol failure is reachable only when the data extraction succeeds and
the first element has neither a truthy b64_json field nor a truthy url
field (fetch is assumed to raise only network-level exceptions, as urllib
does, never a bare RuntimeError). -/
theorem data_empty_index_error (b64dec : PyStr → Bytes)
    (fetch : PyStr → Except PyExc Bytes) (payload : JObj)
    (hfetch : ∀ u m c, fetch u ≠ .error (.runtimeError m c)) :
    (request_image1 b64dec fetch (.ok [("data".toList, .jarr [])]) =
        .error (.indexError ("list index out of range".toList)) ∧
      request_image2 b64dec fetch (.ok [("data".toList, .jarr [])]) =
        .error (.indexError ("list index out of range".toList)) ∧
      isProtocolError
        (request_image1 b64dec fetch (.ok [("data".toList, .jarr [])])) = false) ∧
    (isProtocolError (request_image1 b64dec fetch (.ok payload)) = true →
      ∃ d b u, index0 (dictGet payload ("data".toList) (.jarr [.jobj []])) = .ok d ∧
        elemGet d ("b64_json".toList) = .ok b ∧ elemGet d ("url".toList) = .ok u ∧
        truthy b = false ∧ truthy u = false) := by
  refine ⟨⟨rfl, rfl, rfl⟩, ?_⟩
  intro h
  rw [request_image1] at h
  cases hidx : index0 (dictGet payload ("data".toList) (.jarr [.jobj []])) with
  | error e =>
    rw [hidx] at h
    dsimp only at h
    rcases index0_error hidx with rfl | rfl <;> simp [isProtocolError] at h
  | ok d =>
    rw [hidx] at h
    dsimp only at h
    cases hb : elemGet d ("b64_json".toList) with
    | error e =>
      rw [hb] at h
      dsimp only at h
      rcases elemGet_error hb with rfl
      simp [isProtocolError] at h
    | ok b =>
      cases hu : elemGet d ("url".toList) with
      | error e =>
        rw [hb, hu] at h
        dsimp only at h
        rcases elemGet_error hu with rfl
        simp [isProtocolError] at h
      | ok u =>
        rw [hb, hu] at h
        dsimp only at h
        cases htb : truthy b with
        | true =>
          simp only [htb, if_true] at h
          cases b <;> simp [isProtocolError] at h
        | false =>
          simp only [htb, Bool.false_eq_true, if_false] at h
          cases htu : truthy u with
          | true =>
            simp only [htu, if_true] at h
            cases u with
            | jstr u' =>
              dsimp only at h
              cases hfu : fetch u' with
              | ok bs => rw [hfu] at h; simp [isProtocolError] at h
              | error e2 =>
                rw [hfu] at h
                dsimp only at h
                cases hurl : isURLError e2 with
                | true => simp [hurl, isProtocolError] at h
                | false =>
                  simp only [hurl, Bool.false_eq_true, if_false] at h
                  obtain ⟨m, rfl⟩ := isProtocolError_error h
                  exact absurd hfu (hfetch u' m none)
            | jnull => simp [isProtocolError] at h
            | jbool b2 => simp [isProtocolError] at h
            | jnum n => simp [isProtocolError] at h
            | jarr l => simp [isProtocolError] at h
            | jobj l => simp [isProtocolError] at h
          | false =>
            exact ⟨d, b, u, rfl, hb, hu, htb, htu⟩

theorem data_empty_index_error_spot :
    request_image1 (fun _ => []) (fun _ => .ok []) (.ok [("data".toList, .jarr [])]) =
      .error (.indexError ("list index out of range".toList)) ∧
    (∃ d b u,
      index0 (dictGet [] ("data".toList) (.jarr [.jobj []])) = .ok d ∧
        elemGet d ("b64_json".toList) = .ok b ∧ elemGet d ("url".toList) = .ok u ∧
        truthy b = false ∧ truthy u = false) := by
  have h := data_empty_index_error (fun _ => []) (fun _ => .ok []) []
    (fun u m c hx => by cases hx)
  exact ⟨h.1.1, h.2 rfl⟩

lemma existsNonEmpty_write_ne {fs : FS} {n m : PyStr} {d : FileData} (h : n ≠ m) :
    (fs.write m d).existsNonEmpty n = fs.existsNonEmpty n := by
  rw [FS.existsNonEmpty, FS.existsNonEmpty, FS.write]
  simp [h]

lemma runBatch2_ok_spec (req : PromptRec → Except PyExc Bytes) :
    ∀ (recs : List PromptRec) (s0 s : RunState),
      (recs.map (fun r => fname2 r.id r.title)).Nodup →
      runBatch2 req recs s0 = .ok s →
      s.calls = s0.calls +
          recs.countP (fun r => !s0.fs.existsNonEmpty (fname2 r.id r.title)) ∧
        s.items = s0.items ++ recs.map (fun r => toItem r (fname2 r.id r.title))
  | [], s0, s, _, h => by
    rw [runBatch2] at h
    cases h
    simp
  | r :: rs, s0, s, hnd, h => by
    simp only [runBatch2] at h
    rw [List.map_cons, List.nodup_cons] at hnd
    by_cases hex : s0.fs.existsNonEmpty (fname2 r.id r.title) = true
    · rw [if_pos hex] at h
      obtain ⟨ih1, ih2⟩ := runBatch2_ok_spec req rs _ s hnd.2 h
      constructor
      · rw [ih1]
        dsimp only
        rw [List.countP_cons]
        simp [hex]
      · rw [ih2]
        simp
    · rw [if_neg hex] at h
      have hexf : s0.fs.existsNonEmpty (fname2 r.id r.title) = false := by
        simpa using hex
      cases hreq : req r with
      | error e => rw [hreq] at h; cases h
      | ok bs =>
        rw [hreq] at h
        obtain ⟨ih1, ih2⟩ := runBatch2_ok_spec req rs _ s hnd.2 h
        have hcong : rs.countP (fun r' =>
            !(s0.fs.write (fname2 r.id r.title) (.bin bs)).existsNonEmpty
              (fname2 r'.id r'.title)) =
            rs.countP (fun r' => !s0.fs.existsNonEmpty (fname2 r'.id r'.title)) := by
          apply List.countP_congr
          intro r' hr'
          have hne : fname2 r'.id r'.title ≠ fname2 r.id r.title := by
            intro he
            exact hnd.1 (he ▸ List.mem_map_of_mem _ hr')
          rw [existsNonEmpty_write_ne hne]
        constructor
        · rw [ih1]
          dsimp only
          rw [hcong, List.countP_cons]
          simp [hexf]
          omega
        · rw [ih2]
          simp

lemma runBatch2_items (req : PromptRec → Except PyExc Bytes) :
    ∀ (recs : List PromptRec) (s0 s : RunState),
      runBatch2 req recs s0 = .ok s →
      s.items = s0.items ++ recs.map (fun r => toItem r (fname2 r.id r.title))
  | [], s0, s, h => by
    rw [runBatch2] at h
    cases h
    simp
  | r :: rs, s0, s, h => by
    simp only [runBatch2] at h
    by_cases hex : s0.fs.existsNonEmpty (fname2 r.id r.title) = true
    · rw [if_pos hex] at h
      rw [runBatch2_items req rs _ s h]
      simp
    · rw [if_neg hex] at h
      cases hreq : req r with
      | error e => rw [hreq] at h; cases h
      | ok bs =>
        rw [hreq] at h
        rw [runBatch2_items req rs _ s h]
        simp

lemma runBatch1_items (req : PromptRec → Except PyExc Bytes) :
    ∀ (recs : List PromptRec) (s0 s : RunState),
      runBatch1 req recs s0 = .ok s →
      s.items = s0.items ++ recs.map (fun r => toItem r (fname1 r.id r.title))
  | [], s0, s, h => by
    rw [runBatch1] at h
    cases h
    simp
  | r :: rs, s0, s, h => by
    simp only [runBatch1] at h
    cases hreq : req r with
    | error e => rw [hreq] at h; cases h
    | ok bs =>
      rw [hreq] at h
      rw [runBatch1_items req rs _ s h]
      simp

/-- C1 counterexample: two records with the same id and title share one
expected target path; with an empty directory (K = 0, N = 2) the completed
resumed run performs one image request, not N − K = 2, because the second
record finds the non-empty file written for the first and skips. -/
theorem resume_request_count_cex :
    callsOf (runBatch2 (fun _ => .ok [7])
        [⟨1, "a".toList, "p".toList⟩, ⟨1, "a".toList, "q".toList⟩]
        ⟨(fun _ => none), [], 0⟩) = some 1 ∧
    preexistingCount (fun _ => none)
        [⟨1, "a".toList, "p".toList⟩, ⟨1, "a".toList, "q".toList⟩] = 0 ∧
    ([⟨1, "a".toList, "p".toList⟩, ⟨1, "a".toList, "q".toList⟩] :
        List PromptRec).length = 2 ∧
    some (2 - 0) ≠ some 1 := by
  refine ⟨by decide, by decide, rfl, by decide⟩

/-- C1 amended: for a prompt set of size N whose computed target filenames
are pairwise distinct, and a directory holding non-empty files at exactly K
of the expected target paths, a completed resumed run performs exactly
N − K image requests (one per record whose file is missing or empty), and
the manifest lists the N records in input order. -/
theorem resume_request_count (recs : List PromptRec)
    (req : PromptRec → Except PyExc Bytes) (fs0 : FS) (s : RunState)
    (hnd : (recs.map (fun r => fname2 r.id r.title)).Nodup)
    (hok : runBatch2 req recs ⟨fs0, [], 0⟩ = .ok s) :
    s.calls = recs.length - preexistingCount fs0 recs ∧
    preexistingCount fs0 recs ≤ recs.length ∧
    s.items = recs.map (fun r => toItem r (fname2 r.id r.title)) := by
  obtain ⟨h1, h2⟩ := runBatch2_ok_spec req recs _ s hnd hok
  have hK : preexistingCount fs0 recs =
      recs.countP (fun r => fs0.existsNonEmpty (fname2 r.id r.title)) := by
    rw [preexistingCount, expectedPaths, List.Nodup.dedup hnd,
      List.countP_map]
    rfl
  have hsum := List.length_eq_countP_add_countP
    (fun r => fs0.existsNonEmpty (fname2 r.id r.title)) recs
  have hbr : recs.countP
      (fun r => decide ¬(fs0.existsNonEmpty (fname2 r.id r.title) = true)) =
      recs.countP (fun r => !fs0.existsNonEmpty (fname2 r.id r.title)) := by
    apply List.countP_congr
    intro r _
    simp
  rw [hbr] at hsum
  refine ⟨?_, ?_, by simpa using h2⟩
  · rw [h1, hK]
    dsimp only
    omega
  · rw [hK]
    exact le_trans (List.countP_le_length _) le_rfl

theorem resume_request_count_spot :
    spotSK.calls = ([spotRec1, spotRec2] : List PromptRec).length -
        preexistingCount spotFsK [spotRec1, spotRec2] ∧
    preexistingCount spotFsK [spotRec1, spotRec2] ≤
        ([spotRec1, spotRec2] : List PromptRec).length ∧
    spotSK.items = [spotRec1, spotRec2].map
      (fun r => toItem r (fname2 r.id r.title)) :=
  resume_request_count [spotRec1, spotRec2] spotReq spotFsK spotSK
    (by decide) rfl

/-- C4: the manifest file fields are byte-identical across any two
completed runs over the same records, for each script variant
independently of the network responses and the initial directory contents,
and each field equals the zero-padded id, a dash, the truncated slug of
the title (70 characters in src/generate2.py, 60 in src/generate.py), and
".png". -/
theorem filename_deterministic (recs : List PromptRec)
    (req req' reqa reqa' : PromptRec → Except PyExc Bytes)
    (fs0 fs0' fsa fsa' : FS) (s s' t t' : RunState)
    (h : runBatch2 req recs ⟨fs0, [], 0⟩ = .ok s)
    (h' : runBatch2 req' recs ⟨fs0', [], 0⟩ = .ok s')
    (ha : runBatch1 reqa recs ⟨fsa, [], 0⟩ = .ok t)
    (ha' : runBatch1 reqa' recs ⟨fsa', [], 0⟩ = .ok t') :
    s.items.map GeneratedItem.file = s'.items.map GeneratedItem.file ∧
    t.items.map GeneratedItem.file = t'.items.map GeneratedItem.file ∧
    s.items.map GeneratedItem.file = recs.map (fun r =>
      padId r.id ++ '-' :: ((slugify r.title).take 70 ++ ".png".toList)) ∧
    t.items.map GeneratedItem.file = recs.map (fun r =>
      padId r.id ++ '-' :: ((slugify r.title).take 60 ++ ".png".toList)) := by
  have e2 := runBatch2_items req recs _ s h
  have e2' := runBatch2_items req' recs _ s' h'
  have e1 := runBatch1_items reqa recs _ t ha
  have e1' := runBatch1_items reqa' recs _ t' ha'
  simp only [List.nil_append] at e2 e2' e1 e1'
  rw [e2, e2', e1, e1']
  refine ⟨rfl, rfl, ?_, ?_⟩ <;>
    simp [List.map_map, toItem, fname1, fname2, Function.comp]

theorem filename_deterministic_spot :
    spotS2.items.map GeneratedItem.file = spotS2b.items.map GeneratedItem.file ∧
    spotS1.items.map GeneratedItem.file = spotS1b.items.map GeneratedItem.file ∧
    spotS2.items.map GeneratedItem.file = [spotRec1].map (fun r =>
      padId r.id ++ '-' :: ((slugify r.title).take 70 ++ ".png".toList)) ∧
    spotS1.items.map GeneratedItem.file = [spotRec1].map (fun r =>
      padId r.id ++ '-' :: ((slugify r.title).take 60 ++ ".png".toList)) :=
  filename_deterministic [spotRec1] spotReq spotReqB spotReq spotReqB
    spotFs0 spotFs0 spotFs0 spotFs0 spotS2 spotS2b spotS1 spotS1b
    rfl rfl rfl rfl

/-- C8: a missing credential variable, or one that is blank after
stripping, makes both scripts print the diagnostic to stderr and return
exit code 2 with no request performed and the directory untouched; when
the credential is present and the batch completes, they return 0. -/
theorem credential_exit_codes (key : Option PyStr) (outDir : PyStr)
    (recs : List PromptRec) (req : PromptRec → Except PyExc Bytes) (fs0 : FS) :
    (stripBy isSpace (key.getD []) = [] →
      main1 key outDir recs req fs0 =
        ⟨some 2, ["Missing OPENAI_API_KEY".toList], fs0, 0⟩ ∧
      main2 key recs req fs0 =
        ⟨some 2, ["Missing OPENAI_API_KEY".toList], fs0, 0⟩) ∧
    (stripBy isSpace (key.getD []) ≠ [] →
      (∀ s, runBatch1 req recs ⟨fs0, [], 0⟩ = .ok s →
        (main1 key outDir recs req fs0).exit = some 0) ∧
      (∀ s, runBatch2 req recs ⟨fs0, [], 0⟩ = .ok s →
        (main2 key recs req fs0).exit = some 0)) := by
  constructor
  · intro hk
    constructor
    · simp only [main1]
      rw [if_pos hk]
    · simp only [main2]
      rw [if_pos hk]
  · intro hk
    constructor
    · intro s hs
      simp only [main1]
      rw [if_neg hk, hs]
    · intro s hs
      simp only [main2]
      rw [if_neg hk, hs]

theorem credential_exit_codes_spot :
    main2 (some ("  ".toList)) [] spotReq spotFs0 =
      ⟨some 2, ["Missing OPENAI_API_KEY".toList], spotFs0, 0⟩ ∧
    (main2 (some ("k".toList)) [] spotReq spotFs0).exit = some 0 :=
  ⟨((credential_exit_codes (some ("  ".toList)) [] [] spotReq spotFs0).1
      (by decide)).2,
   ((credential_exit_codes (some ("k".toList)) [] [] spotReq spotFs0).2
      (by decide)).2 ⟨spotFs0, [], 0⟩ rfl⟩

lemma isPrefixOf_append_of_le :
    ∀ {p l : PyStr}, p.length ≤ l.length → ∀ (t : PyStr),
      p.isPrefixOf (l ++ t) = p.isPrefixOf l
  | [], l, _, t => by simp [List.isPrefixOf]
  | a :: p, [], h, t => by simp at h
  | a :: p, b :: l, h, t => by
    simp only [List.cons_append, List.isPrefixOf, List.append_eq]
    rw [isPrefixOf_append_of_le (by simpa using h) t]

lemma length_le_of_isPrefixOf {p l : PyStr} (h : p.isPrefixOf l = true) :
    p.length ≤ l.length := by
  rw [List.isPrefixOf_iff_prefix] at h
  exact h.length_le

lemma isPrefixOf_take :
    ∀ {l p t : PyStr}, l.length ≤ p.length →
      p.isPrefixOf (l ++ t) = true → l.isPrefixOf p = true
  | [], p, t, _, _ => by simp [List.isPrefixOf]
  | c :: l, p, t, hlen, h => by
    cases p with
    | nil => simp at hlen
    | cons a p' =>
      simp only [List.cons_append, List.isPrefixOf, Bool.and_eq_true,
        beq_iff_eq] at h ⊢
      obtain ⟨rfl, h2⟩ := h
      exact ⟨rfl, isPrefixOf_take (by simpa using hlen) h2⟩

lemma countSub_append_safe {pat : PyStr} :
    ∀ (F : PyStr), SafeFor pat F = true → ∀ (t : PyStr),
      countSub pat (F ++ t) = countSub pat F + countSub pat t
  | [], _, t => by simp [countSub]
  | c :: cs, hs, t => by
    rw [SafeFor, Bool.and_eq_true, Bool.or_eq_true] at hs
    have htail := countSub_append_safe cs hs.2 t
    have hind : pat.isPrefixOf (c :: (cs ++ t)) = pat.isPrefixOf (c :: cs) := by
      rcases hs.1 with h1 | h1
      · rw [decide_eq_true_eq] at h1
        exact isPrefixOf_append_of_le h1 t
      · rw [Bool.not_eq_true'] at h1
        by_cases hlen : pat.length ≤ (c :: cs).length
        · exact isPrefixOf_append_of_le hlen t
        · push_neg at hlen
          have hA : pat.isPrefixOf (c :: cs) = false := by
            by_contra hx
            rw [Bool.not_eq_false] at hx
            exact absurd (length_le_of_isPrefixOf hx) (by omega)
          have hB : pat.isPrefixOf (c :: (cs ++ t)) = false := by
            by_contra hx
            rw [Bool.not_eq_false] at hx
            have := isPrefixOf_take (le_of_lt hlen) hx
            rw [this] at h1
            cases h1
          rw [hA, hB]
    rw [List.cons_append, countSub, countSub, htail, hind]
    omega

lemma countSub_cons_ne {c : Char} (hc : c ≠ '<') (z : PyStr) :
    countSub figPat (c :: z) = countSub figPat z := by
  rw [countSub]
  have hfp : figPat.isPrefixOf (c :: z) = false := by
    rw [figPat]
    simp only [List.isPrefixOf, Bool.and_eq_false_iff]
    left
    simp [Ne.symm hc]
  rw [hfp]
  simp

lemma countSub_skip {s : PyStr} (h : '<' ∉ s) (t : PyStr) :
    countSub figPat (s ++ t) = countSub figPat t := by
  induction s with
  | nil => rfl
  | cons c cs ih =>
    rw [List.cons_append,
      countSub_cons_ne (fun he => h (he ▸ List.mem_cons_self _ _)) _]
    exact ih (fun hm => h (List.mem_cons_of_mem _ hm))

lemma digitChar_ne_lt : ∀ (d : Nat), digitChar d ≠ '<' := by
  intro d
  rcases d with _|_|_|_|_|_|_|_|_|d <;> try decide
  change ('9' : Char) ≠ '<'
  decide

lemma not_lt_mem_natReprAux : ∀ (fuel n : Nat), '<' ∉ natReprAux fuel n
  | 0, n => by simp [natReprAux]
  | fuel + 1, n => by
    rw [natReprAux]
    by_cases h : n < 10
    · rw [if_pos h]
      intro hm
      exact digitChar_ne_lt n (List.mem_singleton.mp hm).symm
    · rw [if_neg h]
      intro hm
      rcases List.mem_append.mp hm with hm | hm
      · exact not_lt_mem_natReprAux fuel (n / 10) hm
      · exact digitChar_ne_lt _ (List.mem_singleton.mp hm).symm

lemma not_lt_mem_padId (n : Nat) : '<' ∉ padId n := by
  rw [padId]
  by_cases h : n < 10
  · rw [if_pos h]
    intro hm
    rcases List.mem_cons.mp hm with he | hm
    · exact absurd he (by decide)
    · exact not_lt_mem_natReprAux _ _ hm
  · rw [if_neg h]
    exact not_lt_mem_natReprAux _ _

lemma countSub_figBlock2 (it : GeneratedItem) (t : PyStr)
    (hf : '<' ∉ it.file) (ht : '<' ∉ it.title) :
    countSub figPat (figBlock2 it ++ t) = 1 + countSub figPat t := by
  rw [figBlock2]
  simp only [List.append_assoc]
  rw [countSub_append_safe figA (by decide), countSub_skip hf,
    countSub_append_safe figB (by decide), countSub_skip hf,
    countSub_append_safe figC (by decide), countSub_skip (not_lt_mem_padId _),
    countSub_append_safe figD (by decide), countSub_skip ht,
    countSub_append_safe figE2 (by decide)]
  rw [show countSub figPat figA = 1 from by decide,
    show countSub figPat figB = 0 from by decide,
    show countSub figPat figC = 0 from by decide,
    show countSub figPat figD = 0 from by decide,
    show countSub figPat figE2 = 0 from by decide]
  omega

lemma countSub_figBlock1 (it : GeneratedItem) (t : PyStr)
    (hf : '<' ∉ it.file) (ht : '<' ∉ it.title) (hp : '<' ∉ it.prompt) :
    countSub figPat (figBlock1 it ++ t) = 1 + countSub figPat t := by
  rw [figBlock1]
  simp only [List.append_assoc]
  rw [countSub_append_safe figA (by decide), countSub_skip hf,
    countSub_append_safe figB (by decide), countSub_skip hf,
    countSub_append_safe figC (by decide), countSub_skip (not_lt_mem_padId _),
    countSub_append_safe figD (by decide), countSub_skip ht,
    countSub_append_safe figP (by decide), countSub_skip hp,
    countSub_append_safe figE1 (by decide)]
  rw [show countSub figPat figA = 1 from by decide,
    show countSub figPat figB = 0 from by decide,
    show countSub figPat figC = 0 from by decide,
    show countSub figPat figD = 0 from by decide,
    show countSub figPat figP = 0 from by decide,
    show countSub figPat figE1 = 0 from by decide]
  omega

lemma countSub_mid2 : ∀ (items : List GeneratedItem),
    (∀ it ∈ items, '<' ∉ it.file ∧ '<' ∉ it.title) →
    countSub figPat (joinNL (items.map figBlock2) ++ galPost) = items.length
  | [], _ => by decide
  | [it], h => by
    simp only [List.map_cons, List.map_nil, joinNL]
    rw [countSub_figBlock2 it galPost (h it (List.mem_singleton_self it)).1
      (h it (List.mem_singleton_self it)).2,
      show countSub figPat galPost = 0 from by decide]
    simp
  | it :: it2 :: rest, h => by
    have ih := countSub_mid2 (it2 :: rest)
      (fun x hx => h x (List.mem_cons_of_mem _ hx))
    simp only [List.map_cons, joinNL] at ih ⊢
    rw [List.append_assoc, List.cons_append,
      countSub_figBlock2 it _ (h it (List.mem_cons_self _ _)).1
        (h it (List.mem_cons_self _ _)).2,
      countSub_cons_ne (by decide) _, ih]
    simp [List.length_cons]
    omega

lemma countSub_mid1 : ∀ (items : List GeneratedItem),
    (∀ it ∈ items, '<' ∉ it.file ∧ '<' ∉ it.title ∧ '<' ∉ it.prompt) →
    countSub figPat (joinNL (items.map figBlock1) ++ galPost) = items.length
  | [], _ => by decide
  | [it], h => by
    simp only [List.map_cons, List.map_nil, joinNL]
    rw [countSub_figBlock1 it galPost (h it (List.mem_singleton_self it)).1
      (h it (List.mem_singleton_self it)).2.1
      (h it (List.mem_singleton_self it)).2.2,
      show countSub figPat galPost = 0 from by decide]
    simp
  | it :: it2 :: rest, h => by
    have ih := countSub_mid1 (it2 :: rest)
      (fun x hx => h x (List.mem_cons_of_mem _ hx))
    simp only [List.map_cons, joinNL] at ih ⊢
    rw [List.append_assoc, List.cons_append,
      countSub_figBlock1 it _ (h it (List.mem_cons_self _ _)).1
        (h it (List.mem_cons_self _ _)).2.1
        (h it (List.mem_cons_self _ _)).2.2,
      countSub_cons_ne (by decide) _, ih]
    simp [List.length_cons]
    omega

set_option maxRecDepth 40000 in
/-- C7: the gallery HTML of both variants contains exactly one figure
pattern occurrence per manifest entry, the blocks joined in manifest order
between the fixed header and footer, provided the interpolated fields hold
no HTML (no '<'; the fields are interpolated verbatim, so a field
containing the pattern itself would add occurrences); and the renderer is
a fixed function of the manifest (and, in generate.py, the directory
name), independent of everything else. -/
theorem gallery_figure_count (outDir : PyStr) (items : List GeneratedItem)
    (hcl : ∀ it ∈ items, '<' ∉ it.file ∧ '<' ∉ it.title ∧ '<' ∉ it.prompt)
    (hdir : '<' ∉ outDir) :
    countSub figPat (galleryHtml2 items) = items.length ∧
    countSub figPat (galleryHtml1 outDir items) = items.length ∧
    galleryHtml2 items = gal2Pre ++ (joinNL (items.map figBlock2) ++ galPost) ∧
    galleryHtml1 outDir items =
      gal1PreA ++ (outDir ++ (gal1PreB ++ (joinNL (items.map figBlock1)
        ++ galPost))) := by
  refine ⟨?_, ?_, rfl, rfl⟩
  · rw [galleryHtml2, countSub_append_safe gal2Pre (by decide),
      countSub_mid2 items (fun x hx => ⟨(hcl x hx).1, (hcl x hx).2.1⟩),
      show countSub figPat gal2Pre = 0 from by decide]
    omega
  · rw [galleryHtml1, countSub_append_safe gal1PreA (by decide),
      countSub_skip hdir, countSub_append_safe gal1PreB (by decide),
      countSub_mid1 items hcl,
      show countSub figPat gal1PreA = 0 from by decide,
      show countSub figPat gal1PreB = 0 from by decide]
    omega

theorem gallery_figure_count_spot :
    countSub figPat
      (galleryHtml2 [⟨1, "t".toList, "p".toList, "f.png".toList⟩]) = 1 ∧
    countSub figPat
      (galleryHtml1 ("out".toList)
        [⟨1, "t".toList, "p".toList, "f.png".toList⟩]) = 1 :=
  ⟨(gallery_figure_count ("out".toList)
      [⟨1, "t".toList, "p".toList, "f.png".toList⟩]
      (by decide) (by decide)).1,
   (gallery_figure_count ("out".toList)
      [⟨1, "t".toList, "p".toList, "f.png".toList⟩]
      (by decide) (by decide)).2.1⟩

lemma infix_of_parts {x l : PyStr} (pre post : PyStr)
    (h : pre ++ (x ++ post) = l) : x <:+: l :=
  ⟨pre, post, by rw [← h]; simp⟩

lemma joinNL_infix_of_mem : ∀ {l : List PyStr} {x : PyStr}, x ∈ l →
    x <:+: joinNL l
  | [], x, h => absurd h (List.not_mem_nil x)
  | [y], x, h => by
    rw [List.mem_singleton] at h
    subst h
    exact List.infix_rfl
  | y :: y2 :: ys, x, h => by
    rcases List.mem_cons.mp h with rfl | h
    · exact ⟨[], '\n' :: joinNL (y2 :: ys), by simp [joinNL]⟩
    · have ih := joinNL_infix_of_mem h
      have hsub : joinNL (y2 :: ys) <:+: joinNL (y :: y2 :: ys) :=
        ⟨y ++ ['\n'], [], by simp [joinNL]⟩
      exact ih.trans hsub

/-- C10: the gallery renderer interpolates each item's title (and, in the
generate.py variant, its prompt) into the HTML verbatim, with no escaping:
every member item's title appears character-for-character as a contiguous
substring of the emitted page, whatever characters it contains. -/
theorem gallery_verbatim (outDir : PyStr) (items : List GeneratedItem)
    (it : GeneratedItem) (h : it ∈ items) :
    it.title <:+: galleryHtml1 outDir items ∧
    it.prompt <:+: galleryHtml1 outDir items ∧
    it.title <:+: galleryHtml2 items := by
  have hm1 : figBlock1 it <:+: galleryHtml1 outDir items := by
    have h1 := joinNL_infix_of_mem (List.mem_map_of_mem figBlock1 h)
    have h2 : joinNL (items.map figBlock1) <:+: galleryHtml1 outDir items :=
      ⟨gal1PreA ++ outDir ++ gal1PreB, galPost, by simp [galleryHtml1]⟩
    exact h1.trans h2
  have hm2 : figBlock2 it <:+: galleryHtml2 items := by
    have h1 := joinNL_infix_of_mem (List.mem_map_of_mem figBlock2 h)
    have h2 : joinNL (items.map figBlock2) <:+: galleryHtml2 items :=
      ⟨gal2Pre, galPost, by simp [galleryHtml2]⟩
    exact h1.trans h2
  refine ⟨?_, ?_, ?_⟩
  · refine (infix_of_parts
      (figA ++ (it.file ++ (figB ++ (it.file ++ (figC ++ (padId it.id
        ++ figD)))))) (figP ++ (it.prompt ++ figE1)) ?_).trans hm1
    simp [figBlock1]
  · refine (infix_of_parts
      (figA ++ (it.file ++ (figB ++ (it.file ++ (figC ++ (padId it.id
        ++ (figD ++ (it.title ++ figP)))))))) figE1 ?_).trans hm1
    simp [figBlock1]
  · refine (infix_of_parts
      (figA ++ (it.file ++ (figB ++ (it.file ++ (figC ++ (padId it.id
        ++ figD)))))) figE2 ?_).trans hm2
    simp [figBlock2]

theorem gallery_verbatim_spot :
    "a<&b".toList <:+:
      galleryHtml2 [⟨1, "a<&b".toList, "p".toList, "f.png".toList⟩] :=
  (gallery_verbatim [] [⟨1, "a<&b".toList, "p".toList, "f.png".toList⟩]
    ⟨1, "a<&b".toList, "p".toList, "f.png".toList⟩ (by decide)).2.2

end Gen
